import Mathlib

/-!
Shallow embedding of the PolarBear-3D geometry/display core (src/main.py).

The session state of `MainWindow` is modelled as a record; each Python
method that the claims touch becomes a pure Lean function on that record.
Machine floats are modelled as rationals, VTK/OCC kernel calls
(`BRepMesh_IncrementalMesh`, `extract_feature_edges`, `subdivide`,
`decimate`, `pv.read`) are passed in as function parameters, since they are
external library code, not code of this repository.
-/

namespace PolarBear

/-- A 3-D point, as produced by `triangulation.Node(i)` after applying the
face location transform (coordinates modelled as rationals). -/
abbrev V3 := ℚ × ℚ × ℚ

/-- A triangle mesh as held in `self.current_mesh` (a `pv.PolyData`):
the vertex buffer and the triangle records.  Each triangle record keeps the
three vertex indices of the VTK cell `[3, i1, i2, i3]` (the leading cell
size 3 is fixed framing and is not stored). -/
structure Mesh where
  vertices : List V3
  triangles : List (Int × Int × Int)
deriving DecidableEq

/-- `mesh.n_points` of PyVista: the number of vertices. -/
def Mesh.n_points (m : Mesh) : Nat := m.vertices.length

/-- One triangle of a face triangulation: `tri.Get()` returns three
1-based local node indices. -/
structure LocalTri where
  i1 : Nat
  i2 : Nat
  i3 : Nat
deriving DecidableEq

/-- The data carried by a face that has a triangulation: its local nodes
(already transformed to world space by the face location, as the loop in
`_shape_to_pyvista_mesh` does with `pnt.Transform(transform)`) and its
local triangles. -/
structure FaceTriangulation where
  nodes : List V3
  tris : List LocalTri
deriving DecidableEq

/-- A topological face as seen by the tessellation loop:
`BRep_Tool.Triangulation_s` either yields a triangulation or `None`. -/
abbrev Face := Option FaceTriangulation

/-- A B-Rep shape, reduced to what the tessellation loop enumerates:
its list of topological faces. -/
abbrev Shape := List Face

/-- Accumulator of the face loop in `_shape_to_pyvista_mesh`: the global
vertex buffer, the global triangle records, and the warnings the loop
logs (the source logs none while skipping faces). -/
structure TessAcc where
  vertices : List V3
  triangles : List (Int × Int × Int)
  warnings : List String
deriving DecidableEq

/-- One iteration of the face loop of `_shape_to_pyvista_mesh`:
a face without triangulation is skipped (the source emits no log call on
this path); a face with triangulation records `offset = len(vertices)`
before appending its nodes, then emits `(idx + offset - 1)` per local
index. -/
def faceStep (acc : TessAcc) (f : Face) : TessAcc :=
  match f with
  | none => acc
  | some ft =>
    let offset := acc.vertices.length
    { vertices := acc.vertices ++ ft.nodes
      triangles := acc.triangles ++ ft.tris.map (fun tr =>
        ((tr.i1 : Int) + offset - 1,
         (tr.i2 : Int) + offset - 1,
         (tr.i3 : Int) + offset - 1))
      warnings := acc.warnings }

/-- The whole face loop of `_shape_to_pyvista_mesh`, starting from empty
buffers. -/
def tessFaces (faces : Shape) : TessAcc :=
  faces.foldl faceStep { vertices := [], triangles := [], warnings := [] }

/-- Assembling the accumulated buffers into the returned `pv.PolyData`. -/
def TessAcc.toMesh (t : TessAcc) : Mesh :=
  { vertices := t.vertices, triangles := t.triangles }

/-- `_shape_to_pyvista_mesh(shape, linear_deflection, angular_deflection)`:
first `BRepMesh_IncrementalMesh` (the external OCC kernel meshing pass,
passed in as `incMesh`, which rewrites the per-face triangulation caches
from the deflections), then the face loop. -/
def shape_to_pyvista_mesh (incMesh : ℚ → ℚ → Shape → Shape)
    (shape : Shape) (linear_deflection angular_deflection : ℚ) : TessAcc :=
  tessFaces (incMesh linear_deflection angular_deflection shape)

/-- Render properties of the base mesh actor (`self.mesh_actor`), the
fields the display-mode setters mutate. -/
structure MeshActor where
  visible : Bool
  style : String
  color : String
  opacity : ℚ
  specular : ℚ
  ambient : ℚ
  diffuse : ℚ
  show_edges : Bool
  point_size : ℚ
  render_points_as_spheres : Bool
deriving DecidableEq

/-- The feature-edge overlay actor (`self.edge_actor`).  `edges` records
the mesh returned by `current_mesh.extract_feature_edges(boundary_edges=
True, feature_edges=True, manifold_edges=False)` from which the actor was
built. -/
structure EdgeActor where
  visible : Bool
  color : String
  line_width : ℚ
  edges : Mesh
deriving DecidableEq

/-- The clip-plane overlay added by `add_mesh_clip_plane` (the arguments
the source passes that persist as overlay state). -/
structure ClipPlane where
  axis : String
  color : String
  show_edges : Bool
  specular : ℚ
deriving DecidableEq

/-- The session state of `MainWindow` relevant to the core: renderer
presence, the Shape/Mesh pair, the two actors, the clip overlay, the
material/display settings, and the tool flags. -/
structure Session where
  plotter : Bool
  current_shape : Option Shape
  current_mesh : Option Mesh
  mesh_actor : Option MeshActor
  edge_actor : Option EdgeActor
  clip_plane : Option ClipPlane
  model_color : String
  current_opacity : ℚ
  current_specular : ℚ
  current_precision : String
  show_mesh_edges : Bool
  is_measuring : Bool
  is_sectioning : Bool
  axes_visible : Bool
  bounds_visible : Bool
deriving DecidableEq

/-- The state set up by `MainWindow.__init__` (the lazily-initialised tool
flags start at their `getattr(..., False)` defaults); `plotter` records
whether a renderer was successfully created. -/
def initSession (plotter : Bool) : Session :=
  { plotter := plotter
    current_shape := none
    current_mesh := none
    mesh_actor := none
    edge_actor := none
    clip_plane := none
    model_color := "#bcbcbc"
    current_opacity := 1
    current_specular := mkRat 1 2
    current_precision := "Medium"
    show_mesh_edges := false
    is_measuring := false
    is_sectioning := false
    axes_visible := true
    bounds_visible := false }

/-- `set_shaded_mode`: no-op without a mesh actor; otherwise shows the
surface at the current opacity/color/specular, ambient 0.3, diffuse 0.8,
baked-in edges off; the edge actor (if any) is shown only when the
edge-overlay toggle is on and recolored dark (#333333). -/
def set_shaded_mode (s : Session) : Session :=
  match s.mesh_actor with
  | none => s
  | some a =>
    { s with
      mesh_actor := some { a with
        visible := true, style := "surface",
        opacity := s.current_opacity, color := s.model_color,
        specular := s.current_specular, ambient := mkRat 3 10, diffuse := mkRat 4 5,
        show_edges := false }
      edge_actor := s.edge_actor.map (fun e =>
        { e with visible := s.show_mesh_edges, color := "#333333" }) }

/-- `set_wireframe_mode`: hides the base surface and shows the edge actor
in the light color #d6d6d6. -/
def set_wireframe_mode (s : Session) : Session :=
  match s.mesh_actor with
  | none => s
  | some a =>
    { s with
      mesh_actor := some { a with visible := false }
      edge_actor := s.edge_actor.map (fun e =>
        { e with visible := true, color := "#d6d6d6" }) }

/-- `set_transparent_mode`: shows the surface with opacity forced to 0.04
and baked-in edges off, edge actor shown in #d6d6d6.  The slider sync is
guarded by `hasattr(self, 'opacity_slider')`, and `MainWindow` never
assigns that attribute, so `current_opacity` is untouched. -/
def set_transparent_mode (s : Session) : Session :=
  match s.mesh_actor with
  | none => s
  | some a =>
    { s with
      mesh_actor := some { a with
        visible := true, style := "surface", opacity := mkRat 1 25,
        show_edges := false }
      edge_actor := s.edge_actor.map (fun e =>
        { e with visible := true, color := "#d6d6d6" }) }

/-- `set_surface_with_edges_mode`: surface with baked-in edges at the
current opacity; the separate edge actor is hidden. -/
def set_surface_with_edges_mode (s : Session) : Session :=
  match s.mesh_actor with
  | none => s
  | some a =>
    { s with
      mesh_actor := some { a with
        visible := true, style := "surface", show_edges := true,
        opacity := s.current_opacity }
      edge_actor := s.edge_actor.map (fun e => { e with visible := false }) }

/-- `set_points_mode`: point-cloud style with point size 5 rendered as
spheres, edge actor hidden.  The opacity property is not assigned on this
path. -/
def set_points_mode (s : Session) : Session :=
  match s.mesh_actor with
  | none => s
  | some a =>
    { s with
      mesh_actor := some { a with
        visible := true, style := "points", point_size := 5,
        render_points_as_spheres := true }
      edge_actor := s.edge_actor.map (fun e => { e with visible := false }) }

/-- `toggle_section`: deactivation clears the plane widgets and
unconditionally sets the base actor visible; activation requires a
non-empty current mesh, hides the base actor and adds a clip plane
assigned to the z axis (the `isinstance` guard always passes here since
`current_mesh` is a `PolyData` in this embedding, and
`add_mesh_clip_plane` is modelled as succeeding). -/
def toggle_section (s : Session) : Session :=
  if !s.plotter then s
  else if s.is_sectioning then
    { s with
      clip_plane := none
      mesh_actor := s.mesh_actor.map (fun a => { a with visible := true })
      is_sectioning := false }
  else
    match s.current_mesh with
    | none => s
    | some m =>
      if 0 < m.n_points then
        let cp : ClipPlane :=
          { axis := "z", color := s.model_color, show_edges := false,
            specular := s.current_specular }
        { s with
          mesh_actor := s.mesh_actor.map (fun a => { a with visible := false })
          clip_plane := some cp
          is_sectioning := true }
      else s

/-- `set_section_axis(axis)`: auto-activates the section tool if it is
off, then tears the plane widget down and re-adds the clip plane assigned
to the requested axis. -/
def set_section_axis (axis : String) (s : Session) : Session :=
  let s1 := if !s.is_sectioning then toggle_section s else s
  if s1.plotter then
    match s1.current_mesh with
    | none => s1
    | some _ =>
      let cp : ClipPlane :=
        { axis := axis, color := s1.model_color, show_edges := false,
          specular := s1.current_specular }
      { s1 with
        mesh_actor := s1.mesh_actor.map (fun a => { a with visible := false })
        clip_plane := some cp
        is_sectioning := true }
  else s1

/-- `reset_section_plane`: when the section tool is active, toggles it
off and back on. -/
def reset_section_plane (s : Session) : Session :=
  if s.plotter && s.is_sectioning then toggle_section (toggle_section s) else s

/-- `delete_object`: with a renderer present, clears the rendered scene
(including the clip overlay), drops the Shape/Mesh/actor references and
resets the tool flags. -/
def delete_object (s : Session) : Session :=
  if s.plotter then
    { s with
      current_shape := none
      current_mesh := none
      mesh_actor := none
      edge_actor := none
      clip_plane := none
      is_measuring := false
      is_sectioning := false
      axes_visible := true
      bounds_visible := false }
  else s

/-- The precision table of `load_current_shape`:
`params.get(self.current_precision, (0.1, 0.5))`. -/
def precisionParams (p : String) : ℚ × ℚ :=
  if p = "Low" then (mkRat 1 2, mkRat 4 5)
  else if p = "Medium" then (mkRat 1 10, mkRat 1 2)
  else if p = "High" then (mkRat 1 50, mkRat 1 10)
  else (mkRat 1 10, mkRat 1 2)

/-- `load_current_shape`: no-op without a Shape; otherwise re-tessellates
at the deflections of the stored precision, replaces the current mesh,
and (with a renderer) rebuilds the base actor and regenerates the edge
overlay from the new mesh. -/
def load_current_shape (incMesh : ℚ → ℚ → Shape → Shape)
    (efe : Mesh → Mesh) (s : Session) : Session :=
  match s.current_shape with
  | none => s
  | some shp =>
    let pr := precisionParams s.current_precision
    let mesh := (shape_to_pyvista_mesh incMesh shp pr.1 pr.2).toMesh
    let s1 := { s with current_mesh := some mesh }
    let a2 : MeshActor :=
      { visible := true, style := "surface", color := s.model_color,
        opacity := s.current_opacity, specular := s.current_specular,
        ambient := mkRat 3 10, diffuse := mkRat 4 5, show_edges := false,
        point_size := 5, render_points_as_spheres := false }
    let e2 : EdgeActor :=
      { visible := true, color := "black", line_width := 1,
        edges := efe mesh }
    if s1.plotter then
      { s1 with mesh_actor := some a2, edge_actor := some e2
                clip_plane := none }
    else s1

/-- `on_precision_changed(text)`: stores the new precision first, then
re-tessellates only when a Shape is present. -/
def on_precision_changed (incMesh : ℚ → ℚ → Shape → Shape)
    (efe : Mesh → Mesh) (text : String) (s : Session) : Session :=
  let s1 := { s with current_precision := text }
  if s1.current_shape.isSome then load_current_shape incMesh efe s1 else s1

/-- `subdivide_mesh`: replaces the current mesh with the loop-subdivided
one (`subdivide(1, subfilter='loop')`, passed in as `sub`) and, with a
renderer, clears the scene and adds a fresh base actor with PyVista's
default render properties.  No edge overlay is rebuilt on this path and
`self.edge_actor` is not reassigned. -/
def subdivide_mesh (sub : Mesh → Mesh) (s : Session) : Session :=
  match s.current_mesh with
  | none => s
  | some m =>
    let m2 := sub m
    let s1 := { s with current_mesh := some m2 }
    let a2 : MeshActor :=
      { visible := true, style := "surface", color := s.model_color,
        opacity := 1, specular := 0, ambient := 0, diffuse := 1,
        show_edges := false, point_size := 5,
        render_points_as_spheres := false }
    if s1.plotter then
      { s1 with mesh_actor := some a2, clip_plane := none }
    else s1

/-- `simplify_mesh`: when a mesh is present and the dialog is accepted
(`ok`), replaces the mesh with the decimated one and, with a renderer,
clears the scene, adds a fresh base actor and regenerates the edge
overlay from the new mesh. -/
def simplify_mesh (decimate : ℚ → Mesh → Mesh) (efe : Mesh → Mesh)
    (target : ℚ) (ok : Bool) (s : Session) : Session :=
  match s.current_mesh with
  | none => s
  | some m =>
    if ok then
      let m2 := decimate target m
      let s1 := { s with current_mesh := some m2 }
      let a2 : MeshActor :=
        { visible := true, style := "surface", color := s.model_color,
          opacity := 1, specular := s.current_specular, ambient := 0,
          diffuse := 1, show_edges := false, point_size := 5,
          render_points_as_spheres := false }
      let e2 : EdgeActor :=
        { visible := true, color := "black", line_width := 1,
          edges := efe m2 }
      if s1.plotter then
        { s1 with mesh_actor := some a2, edge_actor := some e2
                  clip_plane := none }
      else s1
    else s

/-- `load_mesh_file`: reads a polygon mesh (external `pv.read`, passed in
as `readMesh`; `none` models the raised exception, which leaves the state
unchanged), stores it and clears any Shape, then (with a renderer)
rebuilds the base actor and the edge overlay, whose visibility follows
the edge toggle. -/
def load_mesh_file (readMesh : String → Option Mesh) (efe : Mesh → Mesh)
    (path : String) (s : Session) : Session :=
  match readMesh path with
  | none => s
  | some m =>
    let s1 := { s with current_mesh := some m, current_shape := none }
    let a2 : MeshActor :=
      { visible := true, style := "surface", color := s.model_color,
        opacity := s.current_opacity, specular := s.current_specular,
        ambient := mkRat 3 10, diffuse := mkRat 4 5, show_edges := false,
        point_size := 5, render_points_as_spheres := false }
    let e2 : EdgeActor :=
      { visible := s.show_mesh_edges, color := "black", line_width := 1,
        edges := efe m }
    if s1.plotter then
      { s1 with mesh_actor := some a2, edge_actor := some e2 }
    else s1

/-- Lower-casing of a string, as `str.lower()` applies to the
extension. -/
def strLower (s : String) : String := String.mk (s.toList.map Char.toLower)

/-- The extension part of `os.path.splitext(path)[1]` for an ordinary
file name: the suffix starting at the last dot, empty when the name has
no dot. -/
def extOf (path : String) : String :=
  let rev := path.toList.reverse
  let extRev := rev.takeWhile (fun c => c ≠ '.')
  if extRev.length < rev.length then String.mk ('.' :: extRev.reverse)
  else ""

/-- The outcome `export_file` reports (message boxes / log lines mapped
to a typed result). -/
inductive ExportRes where
  | noModel
  | cancelled
  | wroteStep (shp : Shape)
  | formatMismatch
  | wroteMesh (m : Mesh)
  | noMeshData
  | unknownExt
deriving DecidableEq

/-- `export_file`, with the dialog's chosen path as argument (empty =
dialog cancelled).  The STEP branch without a Shape shows the
mesh-cannot-be-STEP warning and returns; the external STEP writer and
`mesh.save` are modelled as succeeding.  No session field is assigned on
any path. -/
def export_file (file_name : String) (s : Session) : Session × ExportRes :=
  if s.current_mesh.isNone && s.current_shape.isNone then (s, .noModel)
  else if file_name = "" then (s, .cancelled)
  else
    let ext := strLower (extOf file_name)
    if ext ∈ [".step", ".stp"] then
      match s.current_shape with
      | some shp => (s, .wroteStep shp)
      | none => (s, .formatMismatch)
    else if ext ∈ [".stl", ".obj", ".ply", ".vtk"] then
      match s.current_mesh with
      | some m => (s, .wroteMesh m)
      | none => (s, .noMeshData)
    else (s, .unknownExt)

/-- Validity of a face's local triangle indices: 1-based and at most the
face's node count (what the kernel's `Poly_Triangulation` provides). -/
def validFace : Face → Prop
  | none => True
  | some ft => ∀ tr ∈ ft.tris,
      (1 ≤ tr.i1 ∧ tr.i1 ≤ ft.nodes.length) ∧
      (1 ≤ tr.i2 ∧ tr.i2 ≤ ft.nodes.length) ∧
      (1 ≤ tr.i3 ∧ tr.i3 ≤ ft.nodes.length)

instance (f : Face) : Decidable (validFace f) :=
  match f with
  | none => isTrue trivial
  | some ft => List.decidableBAll _ ft.tris

/-- A triangle record is within bounds of a vertex buffer of length `n`:
all three indices are 0-based (non-negative) and strictly below `n`. -/
def triInBounds (n : Nat) (t : Int × Int × Int) : Prop :=
  0 ≤ t.1 ∧ t.1 < (n : Int) ∧ 0 ≤ t.2.1 ∧ t.2.1 < (n : Int) ∧
  0 ≤ t.2.2 ∧ t.2.2 < (n : Int)

instance (n : Nat) (t : Int × Int × Int) : Decidable (triInBounds n t) := by
  unfold triInBounds; infer_instance

/-- Sample face triangulation: one triangle on three nodes. -/
def ft0 : FaceTriangulation :=
  { nodes := [(0, 0, 0), (1, 0, 0), (0, 1, 0)], tris := [⟨1, 2, 3⟩] }

/-- Sample shape: one triangulated face followed by one face without a
triangulation. -/
def shape0 : Shape := [some ft0, none]

/-- A one-vertex mesh (enough for the `n_points > 0` guards). -/
def mesh0 : Mesh := { vertices := [(0, 0, 0)], triangles := [] }

/-- A second, distinct mesh, used as the output of external filters. -/
def mesh1 : Mesh := { vertices := [(0, 0, 0), (1, 0, 0)], triangles := [] }

/-- A mesh actor in the state Shaded mode leaves it in (visible surface,
opacity 1). -/
def actor0 : MeshActor :=
  { visible := true, style := "surface", color := "#bcbcbc", opacity := 1,
    specular := mkRat 1 2, ambient := mkRat 3 10, diffuse := mkRat 4 5, show_edges := false,
    point_size := 5, render_points_as_spheres := false }

/-- A session holding a one-vertex mesh and its actor (renderer
present). -/
def sessionWithMesh : Session :=
  { initSession true with
      current_mesh := some mesh0
      mesh_actor := some actor0 }

/-- The session after applying Wireframe mode to `sessionWithMesh`. -/
def wireframeSession : Session := set_wireframe_mode sessionWithMesh

/-- A session whose edge overlay was derived from its current mesh
`mesh0`. -/
def sessionWithEdges : Session :=
  { sessionWithMesh with
      edge_actor := some { visible := false, color := "black",
                           line_width := 1, edges := mesh0 } }

/-- A session holding both a Shape and a tessellated mesh. -/
def sessionWithShape : Session :=
  { sessionWithMesh with current_shape := some shape0 }

/-- The session after importing a plain .stl into a fresh session. -/
def stlSession : Session :=
  load_mesh_file (fun _ => some mesh0) id "part.stl" (initSession true)

/-- C9: the session's precision setting defaults to Medium; a precision
string other than Low/Medium/High falls back to Medium's deflection pair
(0.1, 0.5); the deflection pairs are strictly positive and strictly
decrease in both components from Low through Medium to High. -/
theorem precision_table_correct (p : String)
    (h1 : p ≠ "Low") (h2 : p ≠ "Medium") (h3 : p ≠ "High") :
    (initSession true).current_precision = "Medium" ∧
    precisionParams p = (mkRat 1 10, mkRat 1 2) ∧
    precisionParams "Medium" = (mkRat 1 10, mkRat 1 2) ∧
    (0 < (precisionParams "High").1 ∧ 0 < (precisionParams "High").2) ∧
    ((precisionParams "High").1 < (precisionParams "Medium").1 ∧
      (precisionParams "Medium").1 < (precisionParams "Low").1) ∧
    ((precisionParams "High").2 < (precisionParams "Medium").2 ∧
      (precisionParams "Medium").2 < (precisionParams "Low").2) := by
  refine ⟨rfl, ?_, by decide, by decide, by decide, by decide⟩
  simp [precisionParams, h1, h2, h3]

/-- Witness for `precision_table_correct` at the unknown precision string
"Ultra". -/
theorem precision_table_correct_witness :
    (("Ultra" : String) ≠ "Low" ∧ ("Ultra" : String) ≠ "Medium" ∧
      ("Ultra" : String) ≠ "High") ∧
    ((initSession true).current_precision = "Medium" ∧
     precisionParams "Ultra" = (mkRat 1 10, mkRat 1 2) ∧
     precisionParams "Medium" = (mkRat 1 10, mkRat 1 2) ∧
     (0 < (precisionParams "High").1 ∧ 0 < (precisionParams "High").2) ∧
     ((precisionParams "High").1 < (precisionParams "Medium").1 ∧
       (precisionParams "Medium").1 < (precisionParams "Low").1) ∧
     ((precisionParams "High").2 < (precisionParams "Medium").2 ∧
       (precisionParams "Medium").2 < (precisionParams "Low").2)) :=
  ⟨⟨by decide, by decide, by decide⟩,
    precision_table_correct "Ultra" (by decide) (by decide) (by decide)⟩

/-- C10: with a renderer present, `delete_object` clears the Shape, the
Mesh and both actors and turns the measurement and section tools off. -/
theorem delete_object_resets (s : Session) (hp : s.plotter = true) :
    (delete_object s).current_shape = none ∧
    (delete_object s).current_mesh = none ∧
    (delete_object s).mesh_actor = none ∧
    (delete_object s).edge_actor = none ∧
    (delete_object s).is_measuring = false ∧
    (delete_object s).is_sectioning = false := by
  simp [delete_object, hp]

/-- Witness for `delete_object_resets` on a session that holds a mesh,
both actors and an active-looking scene. -/
theorem delete_object_resets_witness :
    sessionWithEdges.plotter = true ∧
    ((delete_object sessionWithEdges).current_shape = none ∧
     (delete_object sessionWithEdges).current_mesh = none ∧
     (delete_object sessionWithEdges).mesh_actor = none ∧
     (delete_object sessionWithEdges).edge_actor = none ∧
     (delete_object sessionWithEdges).is_measuring = false ∧
     (delete_object sessionWithEdges).is_sectioning = false) :=
  ⟨rfl, delete_object_resets sessionWithEdges rfl⟩

/-- C5 counterexample: with no Shape present, `on_precision_changed`
still overwrites the stored precision setting (Medium becomes High), so
the call is not a no-op on the session state. -/
theorem on_precision_changed_not_noop :
    (initSession true).current_shape = none ∧
    on_precision_changed (fun _ _ shp => shp) id "High" (initSession true)
      ≠ initSession true := by decide

/-- C5 amended: with no Shape present, `on_precision_changed` updates
exactly the stored precision setting; the mesh, the Shape and the actors
stay unchanged and no re-tessellation runs. -/
theorem on_precision_changed_no_shape (incMesh : ℚ → ℚ → Shape → Shape)
    (efe : Mesh → Mesh) (text : String) (s : Session)
    (h : s.current_shape = none) :
    on_precision_changed incMesh efe text s
      = { s with current_precision := text } := by
  simp [on_precision_changed, h]

/-- Witness for `on_precision_changed_no_shape` on a fresh session. -/
theorem on_precision_changed_no_shape_witness :
    (initSession true).current_shape = none ∧
    on_precision_changed (fun _ _ shp => shp) id "High" (initSession true)
      = { initSession true with current_precision := "High" } :=
  ⟨rfl, on_precision_changed_no_shape (fun _ _ shp => shp) id "High"
    (initSession true) rfl⟩

/-- C6: on a session holding a mesh but no Shape, exporting to a
.step/.stp path reports the format-mismatch failure and returns the
session unchanged (mesh and shape untouched, nothing written). -/
theorem step_export_without_shape (s : Session) (m : Mesh) (path : String)
    (hm : s.current_mesh = some m) (hs : s.current_shape = none)
    (hpath : ¬ path = "")
    (hext : strLower (extOf path) ∈ [".step", ".stp"]) :
    export_file path s = (s, ExportRes.formatMismatch) := by
  simp [export_file, hm, hs, hpath, hext]

/-- Witness for `step_export_without_shape`: the session obtained by
importing a .stl, then exporting to "model.step". -/
theorem step_export_without_shape_witness :
    (stlSession.current_mesh = some mesh0 ∧
     stlSession.current_shape = none ∧
     ¬ ("model.step" : String) = "" ∧
     strLower (extOf "model.step") ∈ [".step", ".stp"]) ∧
    export_file "model.step" stlSession = (stlSession, ExportRes.formatMismatch) :=
  ⟨⟨rfl, rfl, by decide, by decide⟩,
    step_export_without_shape stlSession mesh0 "model.step" rfl rfl
      (by decide) (by decide)⟩

/-- The vertex buffer only grows along the face loop. -/
lemma foldl_faceStep_vertices_le (faces : List Face) (acc : TessAcc) :
    acc.vertices.length ≤ (faces.foldl faceStep acc).vertices.length := by
  induction faces generalizing acc with
  | nil => exact le_rfl
  | cons f fs ih =>
    refine le_trans ?_ (ih (faceStep acc f))
    cases f with
    | none => exact le_rfl
    | some ft => simp [faceStep]

/-- In-bounds triangles stay in bounds when the vertex buffer grows. -/
lemma triInBounds_mono {n n2 : Nat} (h : n ≤ n2) {t : Int × Int × Int} :
    triInBounds n t → triInBounds n2 t := by
  unfold triInBounds
  intro ht
  obtain ⟨h1, h2, h3, h4, h5, h6⟩ := ht
  have hc : (n : Int) ≤ (n2 : Int) := by exact_mod_cast h
  exact ⟨h1, lt_of_lt_of_le h2 hc, h3, lt_of_lt_of_le h4 hc,
    h5, lt_of_lt_of_le h6 hc⟩

/-- Invariant of the face loop: when every already-emitted triangle is in
bounds of the vertex buffer and every remaining face has valid local
indices, every triangle after the loop is in bounds of the final vertex
buffer. -/
lemma foldl_faceStep_inBounds (faces : List Face) (acc : TessAcc)
    (hacc : ∀ t ∈ acc.triangles, triInBounds acc.vertices.length t)
    (hf : ∀ f ∈ faces, validFace f) :
    ∀ t ∈ (faces.foldl faceStep acc).triangles,
      triInBounds (faces.foldl faceStep acc).vertices.length t := by
  induction faces generalizing acc with
  | nil => simpa using hacc
  | cons f fs ih =>
    have hf1 : validFace f := hf f (List.mem_cons_self f fs)
    have hfs : ∀ g ∈ fs, validFace g := fun g hg => hf g (List.mem_cons_of_mem f hg)
    refine ih (faceStep acc f) ?_ hfs
    cases f with
    | none => simpa [faceStep] using hacc
    | some ft =>
      intro t ht
      have hlen : (faceStep acc (some ft)).vertices.length
          = acc.vertices.length + ft.nodes.length := by
        simp [faceStep]
      have htris : (faceStep acc (some ft)).triangles
          = acc.triangles ++ ft.tris.map (fun tr =>
              ((tr.i1 : Int) + acc.vertices.length - 1,
               (tr.i2 : Int) + acc.vertices.length - 1,
               (tr.i3 : Int) + acc.vertices.length - 1)) := by
        simp [faceStep]
      rw [htris] at ht
      rw [hlen]
      rcases List.mem_append.mp ht with hold | hnew
      · exact triInBounds_mono (Nat.le_add_right _ _) (hacc t hold)
      · rcases List.mem_map.mp hnew with ⟨tr, htr, rfl⟩
        simp only [validFace] at hf1
        obtain ⟨⟨a1, b1⟩, ⟨a2, b2⟩, ⟨a3, b3⟩⟩ := hf1 tr htr
        unfold triInBounds
        refine ⟨?_, ?_, ?_, ?_, ?_, ?_⟩ <;> · simp only [] ; omega

/-- C2: every triangle record emitted by the tessellator has all three
vertex indices 0-based and strictly below the length of the accumulated
vertex buffer, given that each face's local triangle indices are 1-based
and at most that face's node count. -/
theorem shape_to_pyvista_mesh_index_bounds
    (incMesh : ℚ → ℚ → Shape → Shape) (shape : Shape) (ld ad : ℚ)
    (h : ∀ f ∈ incMesh ld ad shape, validFace f) :
    ∀ t ∈ (shape_to_pyvista_mesh incMesh shape ld ad).triangles,
      triInBounds (shape_to_pyvista_mesh incMesh shape ld ad).vertices.length t := by
  unfold shape_to_pyvista_mesh tessFaces
  refine foldl_faceStep_inBounds _ _ ?_ h
  intro t ht
  simp at ht

/-- Witness for `shape_to_pyvista_mesh_index_bounds` on `shape0` with the
identity meshing pass. -/
theorem shape_to_pyvista_mesh_index_bounds_witness :
    (∀ f ∈ shape0, validFace f) ∧
    (∀ t ∈ (shape_to_pyvista_mesh (fun _ _ shp => shp) shape0 (mkRat 1 10)
        (mkRat 1 2)).triangles,
      triInBounds (shape_to_pyvista_mesh (fun _ _ shp => shp) shape0
        (mkRat 1 10) (mkRat 1 2)).vertices.length t) :=
  ⟨by decide,
    shape_to_pyvista_mesh_index_bounds (fun _ _ shp => shp) shape0
      (mkRat 1 10) (mkRat 1 2) (by decide)⟩

/-- C7 counterexample: a shape whose first face carries no triangulation
still tessellates into a partial mesh built from the remaining face, yet
not a single warning is emitted — contradicting one warning per skipped
face. -/
theorem skipped_face_emits_no_warning :
    (tessFaces [none, some ft0]).vertices.length = 3 ∧
    ¬ (1 ≤ (tessFaces [none, some ft0]).warnings.length) := by decide

/-- Skipping is invisible in the output: the loop result only depends on
the faces that carry a triangulation. -/
lemma foldl_faceStep_skip (faces : List Face) (acc : TessAcc) :
    faces.foldl faceStep acc = ((faces.filterMap id).map some).foldl faceStep acc := by
  induction faces generalizing acc with
  | nil => rfl
  | cons f fs ih =>
    cases f with
    | none =>
      simpa [List.filterMap_cons] using ih acc
    | some ft =>
      simpa [List.filterMap_cons] using ih (faceStep acc (some ft))

/-- The face loop never appends a warning. -/
lemma foldl_faceStep_warnings (faces : List Face) (acc : TessAcc) :
    (faces.foldl faceStep acc).warnings = acc.warnings := by
  induction faces generalizing acc with
  | nil => rfl
  | cons f fs ih =>
    cases f with
    | none => exact ih acc
    | some ft => exact (ih (faceStep acc (some ft))).trans rfl

/-- C7 amended: faces lacking a triangulation are skipped silently: the
tessellation of any face list equals the tessellation of just its
triangulated faces (a partial but valid mesh is still returned), and the
warning log stays empty — no warning is emitted for skipped faces. -/
theorem tessFaces_skips_without_warning (faces : Shape) :
    tessFaces faces = tessFaces ((faces.filterMap id).map some) ∧
    (tessFaces faces).warnings = [] :=
  ⟨foldl_faceStep_skip faces _, foldl_faceStep_warnings faces _⟩

/-- C1 amended: on a session with a live mesh actor, each mode setter
applies its table row regardless of the prior state — Shaded: visible
surface at the current opacity, edge actor shown only when the edge
toggle is on, in dark #333333; ShadedWithEdges: visible surface with
baked-in edges at the current opacity, edge actor hidden; Wireframe: base
hidden, edge actor shown in light #d6d6d6; Transparent: visible surface
at forced opacity 1/25, edge actor shown in light #d6d6d6; Points:
visible point cloud with the edge actor hidden — except that Points
leaves the base opacity at whatever the prior mode applied instead of
resetting it to the current opacity setting. -/
theorem display_mode_table (s : Session) (a : MeshActor)
    (h : s.mesh_actor = some a) :
    ((set_shaded_mode s).mesh_actor.map MeshActor.visible = some true ∧
     (set_shaded_mode s).mesh_actor.map MeshActor.style = some "surface" ∧
     (set_shaded_mode s).mesh_actor.map MeshActor.opacity = some s.current_opacity ∧
     (set_shaded_mode s).edge_actor.map (fun e => (e.visible, e.color))
       = s.edge_actor.map (fun _ => (s.show_mesh_edges, "#333333"))) ∧
    ((set_surface_with_edges_mode s).mesh_actor.map MeshActor.visible = some true ∧
     (set_surface_with_edges_mode s).mesh_actor.map MeshActor.style = some "surface" ∧
     (set_surface_with_edges_mode s).mesh_actor.map MeshActor.show_edges = some true ∧
     (set_surface_with_edges_mode s).mesh_actor.map MeshActor.opacity
       = some s.current_opacity ∧
     (set_surface_with_edges_mode s).edge_actor.map EdgeActor.visible
       = s.edge_actor.map (fun _ => false)) ∧
    ((set_wireframe_mode s).mesh_actor.map MeshActor.visible = some false ∧
     (set_wireframe_mode s).edge_actor.map (fun e => (e.visible, e.color))
       = s.edge_actor.map (fun _ => (true, "#d6d6d6"))) ∧
    ((set_transparent_mode s).mesh_actor.map MeshActor.visible = some true ∧
     (set_transparent_mode s).mesh_actor.map MeshActor.style = some "surface" ∧
     (set_transparent_mode s).mesh_actor.map MeshActor.opacity = some (mkRat 1 25) ∧
     (set_transparent_mode s).edge_actor.map (fun e => (e.visible, e.color))
       = s.edge_actor.map (fun _ => (true, "#d6d6d6"))) ∧
    ((set_points_mode s).mesh_actor.map MeshActor.visible = some true ∧
     (set_points_mode s).mesh_actor.map MeshActor.style = some "points" ∧
     (set_points_mode s).mesh_actor.map MeshActor.opacity = some a.opacity ∧
     (set_points_mode s).edge_actor.map EdgeActor.visible
       = s.edge_actor.map (fun _ => false)) := by
  cases he : s.edge_actor <;>
    simp [set_shaded_mode, set_surface_with_edges_mode, set_wireframe_mode,
      set_transparent_mode, set_points_mode, h, he]

/-- Witness for `display_mode_table` on `sessionWithMesh` and its
actor. -/
theorem display_mode_table_witness :
    sessionWithMesh.mesh_actor = some actor0 ∧
    (((set_shaded_mode sessionWithMesh).mesh_actor.map MeshActor.visible = some true ∧
      (set_shaded_mode sessionWithMesh).mesh_actor.map MeshActor.style = some "surface" ∧
      (set_shaded_mode sessionWithMesh).mesh_actor.map MeshActor.opacity
        = some sessionWithMesh.current_opacity ∧
      (set_shaded_mode sessionWithMesh).edge_actor.map (fun e => (e.visible, e.color))
        = sessionWithMesh.edge_actor.map
            (fun _ => (sessionWithMesh.show_mesh_edges, "#333333"))) ∧
     ((set_surface_with_edges_mode sessionWithMesh).mesh_actor.map MeshActor.visible
        = some true ∧
      (set_surface_with_edges_mode sessionWithMesh).mesh_actor.map MeshActor.style
        = some "surface" ∧
      (set_surface_with_edges_mode sessionWithMesh).mesh_actor.map MeshActor.show_edges
        = some true ∧
      (set_surface_with_edges_mode sessionWithMesh).mesh_actor.map MeshActor.opacity
        = some sessionWithMesh.current_opacity ∧
      (set_surface_with_edges_mode sessionWithMesh).edge_actor.map EdgeActor.visible
        = sessionWithMesh.edge_actor.map (fun _ => false)) ∧
     ((set_wireframe_mode sessionWithMesh).mesh_actor.map MeshActor.visible
        = some false ∧
      (set_wireframe_mode sessionWithMesh).edge_actor.map (fun e => (e.visible, e.color))
        = sessionWithMesh.edge_actor.map (fun _ => (true, "#d6d6d6"))) ∧
     ((set_transparent_mode sessionWithMesh).mesh_actor.map MeshActor.visible
        = some true ∧
      (set_transparent_mode sessionWithMesh).mesh_actor.map MeshActor.style
        = some "surface" ∧
      (set_transparent_mode sessionWithMesh).mesh_actor.map MeshActor.opacity
        = some (mkRat 1 25) ∧
      (set_transparent_mode sessionWithMesh).edge_actor.map (fun e => (e.visible, e.color))
        = sessionWithMesh.edge_actor.map (fun _ => (true, "#d6d6d6"))) ∧
     ((set_points_mode sessionWithMesh).mesh_actor.map MeshActor.visible = some true ∧
      (set_points_mode sessionWithMesh).mesh_actor.map MeshActor.style = some "points" ∧
      (set_points_mode sessionWithMesh).mesh_actor.map MeshActor.opacity
        = some actor0.opacity ∧
      (set_points_mode sessionWithMesh).edge_actor.map EdgeActor.visible
        = sessionWithMesh.edge_actor.map (fun _ => false))) :=
  ⟨rfl, display_mode_table sessionWithMesh actor0 rfl⟩

/-- C1 counterexample: starting from a session whose opacity setting is 1,
applying Transparent and then Points leaves the base actor at the forced
opacity 1/25 instead of the session's current opacity — the Points row's
current-opacity column fails when Transparent was active before. -/
theorem points_mode_opacity_not_current :
    ¬ ((set_points_mode (set_transparent_mode sessionWithMesh)).mesh_actor.map
          MeshActor.opacity
        = some (set_points_mode (set_transparent_mode sessionWithMesh)).current_opacity) := by
  decide

/-- C3 amended: activating then deactivating the section tool always ends
with the base actor visible (deactivation calls SetVisibility(True)
unconditionally); the pre-activation visibility is restored exactly when
the current display mode had left the base visible — a hidden base, as in
Wireframe, is not restored. -/
theorem section_cycle_forces_visible (s : Session) (a : MeshActor) (m : Mesh)
    (hp : s.plotter = true) (hs : s.is_sectioning = false)
    (hm : s.current_mesh = some m) (hn : 0 < m.n_points)
    (ha : s.mesh_actor = some a) :
    (toggle_section (toggle_section s)).mesh_actor.map MeshActor.visible = some true ∧
    ((toggle_section (toggle_section s)).mesh_actor.map MeshActor.visible
        = s.mesh_actor.map MeshActor.visible ↔ a.visible = true) := by
  have hact : toggle_section s
      = { s with
          mesh_actor := some { a with visible := false }
          clip_plane := some { axis := "z", color := s.model_color,
                               show_edges := false,
                               specular := s.current_specular }
          is_sectioning := true } := by
    simp [toggle_section, hp, hs, hm, hn, ha]
  rw [hact]
  simp only [toggle_section, hp]
  rw [ha]
  simp

/-- Witness for `section_cycle_forces_visible` on `sessionWithMesh`. -/
theorem section_cycle_forces_visible_witness :
    (sessionWithMesh.plotter = true ∧ sessionWithMesh.is_sectioning = false ∧
     sessionWithMesh.current_mesh = some mesh0 ∧ 0 < mesh0.n_points ∧
     sessionWithMesh.mesh_actor = some actor0) ∧
    ((toggle_section (toggle_section sessionWithMesh)).mesh_actor.map
        MeshActor.visible = some true ∧
     ((toggle_section (toggle_section sessionWithMesh)).mesh_actor.map
          MeshActor.visible
        = sessionWithMesh.mesh_actor.map MeshActor.visible
        ↔ actor0.visible = true)) :=
  ⟨⟨rfl, rfl, rfl, by decide, rfl⟩,
    section_cycle_forces_visible sessionWithMesh actor0 mesh0 rfl rfl rfl
      (by decide) rfl⟩

/-- C3 counterexample: in Wireframe mode the base actor is hidden;
activating then deactivating the section tool leaves it visible, so the
visibility the current mode dictates is not restored. -/
theorem section_cycle_not_restoring_wireframe :
    wireframeSession.mesh_actor.map MeshActor.visible = some false ∧
    ¬ ((toggle_section (toggle_section wireframeSession)).mesh_actor.map
          MeshActor.visible
        = wireframeSession.mesh_actor.map MeshActor.visible) := by decide

/-- C8 amended: with the section tool active on a non-empty mesh,
`reset_section_plane` deactivates and re-activates it, but the
re-activation always assigns the clip plane to the default z axis, not
to the previously selected axis. -/
theorem reset_section_reactivates_on_z (s : Session) (m : Mesh)
    (hp : s.plotter = true) (hs : s.is_sectioning = true)
    (hm : s.current_mesh = some m) (hn : 0 < m.n_points) :
    (reset_section_plane s).is_sectioning = true ∧
    (reset_section_plane s).clip_plane.map ClipPlane.axis = some "z" := by
  simp [reset_section_plane, toggle_section, hp, hs, hm, hn]

/-- Witness for `reset_section_reactivates_on_z` on the session whose
active section axis was set to x. -/
theorem reset_section_reactivates_on_z_witness :
    ((set_section_axis "x" sessionWithMesh).plotter = true ∧
     (set_section_axis "x" sessionWithMesh).is_sectioning = true ∧
     (set_section_axis "x" sessionWithMesh).current_mesh = some mesh0 ∧
     0 < mesh0.n_points) ∧
    ((reset_section_plane (set_section_axis "x" sessionWithMesh)).is_sectioning
        = true ∧
     (reset_section_plane (set_section_axis "x" sessionWithMesh)).clip_plane.map
        ClipPlane.axis = some "z") :=
  ⟨⟨by decide, by decide, by decide, by decide⟩,
    reset_section_reactivates_on_z (set_section_axis "x" sessionWithMesh) mesh0
      (by decide) (by decide) (by decide) (by decide)⟩

/-- C8 counterexample: select the x axis for the active section; resetting
re-activates the section on the z axis, not on the previously selected x
axis, so reset is not deactivate-then-activate(previousAxis). -/
theorem reset_section_loses_selected_axis :
    (set_section_axis "x" sessionWithMesh).is_sectioning = true ∧
    (set_section_axis "x" sessionWithMesh).clip_plane.map ClipPlane.axis = some "x" ∧
    ¬ ((reset_section_plane (set_section_axis "x" sessionWithMesh)).clip_plane.map
        ClipPlane.axis = some "x") := by decide

/-- C4 amended: re-tessellation (`load_current_shape`) and `simplify_mesh`
regenerate the edge overlay from the freshly produced mesh, but
`subdivide_mesh` does not: it leaves the session's edge-actor reference
unchanged, still the overlay derived from the previous mesh. -/
theorem edge_overlay_after_mesh_replacement
    (decF : ℚ → Mesh → Mesh) (subF : Mesh → Mesh) (efe : Mesh → Mesh)
    (incMesh : ℚ → ℚ → Shape → Shape) (target : ℚ)
    (s : Session) (m : Mesh) (shp : Shape)
    (hp : s.plotter = true) (hm : s.current_mesh = some m)
    (hs : s.current_shape = some shp) :
    (simplify_mesh decF efe target true s).edge_actor
      = some { visible := true, color := "black", line_width := 1,
               edges := efe (decF target m) } ∧
    (load_current_shape incMesh efe s).edge_actor
      = some { visible := true, color := "black", line_width := 1,
               edges := efe (shape_to_pyvista_mesh incMesh shp
                 (precisionParams s.current_precision).1
                 (precisionParams s.current_precision).2).toMesh } ∧
    (subdivide_mesh subF s).edge_actor = s.edge_actor := by
  refine ⟨?_, ?_, ?_⟩ <;>
    simp [simplify_mesh, load_current_shape, subdivide_mesh, hp, hm, hs]

/-- Witness for `edge_overlay_after_mesh_replacement` on
`sessionWithShape` with identity external filters. -/
theorem edge_overlay_after_mesh_replacement_witness :
    (sessionWithShape.plotter = true ∧
     sessionWithShape.current_mesh = some mesh0 ∧
     sessionWithShape.current_shape = some shape0) ∧
    ((simplify_mesh (fun _ mm => mm) id (mkRat 1 2) true sessionWithShape).edge_actor
       = some { visible := true, color := "black", line_width := 1,
                edges := mesh0 } ∧
     (load_current_shape (fun _ _ shp => shp) id sessionWithShape).edge_actor
       = some { visible := true, color := "black", line_width := 1,
                edges := (tessFaces shape0).toMesh } ∧
     (subdivide_mesh id sessionWithShape).edge_actor
       = sessionWithShape.edge_actor) :=
  ⟨⟨rfl, rfl, rfl⟩,
    edge_overlay_after_mesh_replacement (fun _ mm => mm) id id
      (fun _ _ shp => shp) (mkRat 1 2) sessionWithShape mesh0 shape0
      rfl rfl rfl⟩

/-- C4 counterexample: subdividing (external filter producing `mesh1`)
replaces the current mesh but leaves the edge actor exactly as before,
still derived from the old `mesh0`; even with the identity edge filter it
differs from an overlay regenerated from the new mesh. -/
theorem subdivide_keeps_stale_edge_overlay :
    (subdivide_mesh (fun _ => mesh1) sessionWithEdges).current_mesh = some mesh1 ∧
    (subdivide_mesh (fun _ => mesh1) sessionWithEdges).edge_actor
      = sessionWithEdges.edge_actor ∧
    ¬ ((subdivide_mesh (fun _ => mesh1) sessionWithEdges).edge_actor
        = some { visible := true, color := "black", line_width := 1,
                 edges := mesh1 }) := by decide

end PolarBear
